import Mathlib

/-!
Shallow embedding of the mercari-jp-mcp search-and-enrichment pipeline.

Source files embedded:
- `src/mercari/MercariItemPydantic.py` — pydantic record normalization
  (id coercion validator, nested models, top-level `Item`).
- `src/mercari/mercari.py` — search-result summary construction (`Item.__init__`),
  page parsing (`parse`), the paginated `search` generator, page-size clamping
  in `search_page` / `search`.
- `src/server.py` — the two-phase orchestrator `search_mercari_items_filtered`:
  input validation, the category-discovery sampler loop, `Counter.most_common(3)`
  extraction, the phase-2 enrichment loop with price filtering, and the
  top-level exception handling of both phases.

Network effects are parameterized: the search stream and per-item enrichment
outcomes are inputs (a failed fetch is `Option.none` / an `Except.error`),
matching the `try/except` granularity of the Python code.
-/

namespace Mercari

/-- A JSON wire value as far as id-like fields are concerned: a string, an
integer, or JSON `null`.  A field that is absent from the payload is
represented as `Option.none` at the field level. -/
inductive WireVal where
  | str (s : String)
  | int (n : Int)
  | null
  deriving DecidableEq, Repr

/-- `BaseModelWithIdCoercion.coerce_id_to_str` (MercariItemPydantic.py lines
15–19): `return str(v) if v is not None and v != "" else ""`.  Python `str`
of an integer is its decimal representation. -/
def coerce_id_to_str (v : WireVal) : String :=
  match v with
  | .null => ""
  | .str s => if s = "" then "" else s
  | .int n => toString n

/-- Validation of an `id` field on a nested model that inherits
`BaseModelWithIdCoercion` and declares `id: str = ""` (Seller, ItemCategory,
ItemCondition, ShippingPayer, …, ItemAuction, Comment).  When the key is
absent pydantic applies the default `""` without running the before-mode
validator; when present, `coerce_id_to_str` runs first and its output is a
string, so validation always succeeds. -/
def nestedIdField (f : Option WireVal) : String :=
  match f with
  | none => ""
  | some v => coerce_id_to_str v

/-- Validation of the top-level `Item.id` field (MercariItemPydantic.py line
202): `Item` inherits plain `BaseModel`, the field is declared `id: str` with
no default and no validator.  Under pydantic v2 lax mode a `str` field
accepts only strings: an integer or `null` is a `string_type` error and an
absent key is a `missing` error. -/
def itemIdField (f : Option WireVal) : Except String String :=
  match f with
  | none => .error "missing"
  | some (.str s) => .ok s
  | some (.int _) => .error "string_type"
  | some .null => .error "string_type"

/-- `limit = max(1, min(120, page_limit))` in `search_page`
(mercari.py line 220). -/
def search_page_limit (page_limit : Int) : Int :=
  max 1 (min 120 page_limit)

/-- `limit = max(1, min(120, page_limit))` in `search`
(mercari.py line 287). -/
def search_limit (page_limit : Int) : Int :=
  max 1 (min 120 page_limit)

/-- `MercariItemStatus.ITEM_STATUS_SOLD_OUT` (mercari.py line 38). -/
def ITEM_STATUS_SOLD_OUT : String := "ITEM_STATUS_SOLD_OUT"

/-- `rootProductURL` (mercari.py line 13). -/
def rootProductURL : String := "https://jp.mercari.com/item/"

/-- The keyword arguments `Item.__init__` reads from one entry of the search
response's `items` array (mercari.py lines 44–58). -/
structure RawSearchItem where
  id : String
  thumbnails : List String
  name : String
  price : Int
  status : String
  created : Int
  updated : Int
  deriving DecidableEq, Repr

/-- A search-result summary as built by `Item.__init__` (mercari.py lines
44–58). The optional `auction` sub-object is not read by any claim and is
omitted; all other assigned attributes are kept. -/
structure SummaryItem where
  id : String
  productURL : String
  imageURL : String
  productName : String
  price : Int
  status : String
  soldOut : Bool
  created : Int
  updated : Int
  deriving DecidableEq, Repr

/-- `Item.__init__` / `Item.fromApiResp` (mercari.py lines 44–64).
`kwargs['thumbnails'][0]` raises `IndexError` when the list is empty, so the
construction is partial: `none` models that exception. -/
def mkSummaryItem (kw : RawSearchItem) : Option SummaryItem :=
  match kw.thumbnails with
  | [] => none
  | t0 :: _ =>
      some
        { id := kw.id
          productURL := rootProductURL ++ kw.id
          imageURL := t0
          productName := kw.name
          price := kw.price
          status := kw.status
          soldOut := kw.status ≠ ITEM_STATUS_SOLD_OUT
          created := kw.created
          updated := kw.updated }

/-- One page of the search response as `parse` reads it: the `items` array
and `meta.nextPageToken`, which on the wire may be a string or absent/null
(`Option.none`).  The per-item payload is abstracted over `α`; the source
maps `Item.fromApiResp` over it, which is modelled by `mkSummaryItem`. -/
structure PageResp (α : Type) where
  items : List α
  nextPageToken : Option String
  deriving DecidableEq, Repr

/-- Python truthiness of `nextPageToken` (`bool(nextPageToken)`): `None` and
the empty string are falsy. -/
def tokenTruthy (t : Option String) : Bool :=
  match t with
  | none => false
  | some s => s ≠ ""

/-- `parse` (mercari.py lines 83–89): an empty `items` array yields
`([], False, None)`; otherwise the items together with
`bool(nextPageToken)` and the token itself.  The per-item
`Item.fromApiResp` map is modelled separately by `mkSummaryItem`. -/
def parse (resp : PageResp α) : List α × Bool × Option String :=
  if resp.items.length = 0 then ([], false, none)
  else (resp.items, tokenTruthy resp.nextPageToken, resp.nextPageToken)

/-- The `while has_next_page` loop of `search` (mercari.py lines 325–330),
run against the sequence of server page responses (`pages k` is the response
to the `k`-th request).  `fuel` bounds the number of iterations observed;
the returned flag is `true` exactly when the loop reached its exit condition
within `fuel` iterations.  The real loop terminates iff some fuel suffices. -/
def searchStream (fuel : Nat) (pages : Nat → PageResp α) : List α × Bool :=
  match fuel with
  | 0 => ([], false)
  | fuel' + 1 =>
      let (items, hasNext, _tok) := parse (pages 0)
      if hasNext then
        let (rest, t) := searchStream fuel' (fun i => pages (i + 1))
        (items ++ rest, t)
      else (items, true)

/-- `StreamTerminates pages` says the `search` generator, fed this sequence
of page responses, eventually exhausts itself. -/
def StreamTerminates (pages : Nat → PageResp α) : Prop :=
  ∃ fuel, (searchStream fuel pages).2 = true

/-- Response sequence built from a finite prefix, followed by an arbitrary
continuation for requests past the prefix. -/
def pagesOf (ps : List (PageResp α)) (rest : Nat → PageResp α) : Nat → PageResp α :=
  fun i =>
    match ps.get? i with
    | some p => p
    | none => rest (i - ps.length)

/-- Seller rating breakdown (`Ratings`, MercariItemPydantic.py lines 25–33). -/
structure Ratings where
  good : Int := 0
  normal : Int := 0
  bad : Int := 0
  deriving DecidableEq, Repr

/-- The `Seller` fields read by server.py (MercariItemPydantic.py lines
47–63). `score` is a float on the wire; it is only copied, never computed
with, so it is modelled as a rational. -/
structure Seller where
  id : String := ""
  name : String := ""
  num_sell_items : Int := 0
  ratings : Option Ratings := none
  score : Rat := 0
  deriving DecidableEq, Repr

/-- `ItemCategory` (MercariItemPydantic.py lines 66–75), the fields read by
server.py.  `id` is the result of `coerce_id_to_str`, hence a string. -/
structure ItemCategory where
  id : String := ""
  name : String := ""
  deriving DecidableEq, Repr

/-- A named entity with an id — the shape shared by `ItemCondition`,
`ShippingPayer`, `ShippingMethod` and `ShippingFromArea`
(MercariItemPydantic.py lines 92–119). -/
structure NamedEntity where
  id : String := ""
  name : String := ""
  deriving DecidableEq, Repr

/-- `ShippingDuration` (MercariItemPydantic.py lines 122–128). -/
structure ShippingDuration where
  id : String := ""
  name : String := ""
  min_days : Int := 0
  max_days : Int := 0
  deriving DecidableEq, Repr

/-- The validated top-level `Item` (MercariItemPydantic.py lines 193–264)
restricted to the fields server.py reads.  Optional nested objects default
to `none`, lists to `[]`, matching the pydantic defaults. -/
structure EnrichedItem where
  id : String
  name : String
  price : Int
  status : String
  created : Int
  updated : Int
  description : String := ""
  seller : Option Seller := none
  item_condition : Option NamedEntity := none
  shipping_payer : Option NamedEntity := none
  shipping_method : Option NamedEntity := none
  shipping_from_area : Option NamedEntity := none
  shipping_duration : Option ShippingDuration := none
  item_category : Option ItemCategory := none
  photos : List String := []
  num_likes : Int := 0
  num_comments : Int := 0
  deriving DecidableEq, Repr

/-- Outcome of one `getItemInfo(item.id)` call inside a `try` block of
server.py: `none` when the fetch or validation raised, `some` with the
validated record otherwise. -/
abbrev FetchOutcome : Type := Option EnrichedItem

/-- The manual price filter applied to an enriched item (server.py lines
107–110 and 192–195): `continue` when
`min_price is not None and full_item.price < min_price` or
`max_price is not None and full_item.price > max_price`. -/
def priceExcluded (min_price max_price : Option Int) (price : Int) : Bool :=
  (match min_price with
   | some m => price < m
   | none => false) ||
  (match max_price with
   | some m => price > m
   | none => false)

/-- Python truthiness of `full_item.item_category and full_item.item_category.id`
(server.py line 112): the category object must be present and its id a
non-empty string. -/
def categoryTruthy (c : Option ItemCategory) : Bool :=
  match c with
  | none => false
  | some cat => cat.id ≠ ""

/-- `category_counter[full_item.item_category.id] += 1` on a
`collections.Counter` (server.py line 113): a Counter is an
insertion-ordered map, so a fresh key is appended at the end and an existing
key is incremented in place. -/
def counterInc (key : String) : List (String × Nat) → List (String × Nat)
  | [] => [(key, 1)]
  | (k, c) :: rest =>
      if k = key then (k, c + 1) :: rest else (k, c) :: counterInc key rest

/-- Mutable state of the category-discovery loop (server.py lines 81–85):
`category_counter`, `sample_count`, `attempt_count`, and the length of
`failed_items`. -/
structure SamplerState where
  counter : List (String × Nat) := []
  sample : Nat := 0
  attempt : Nat := 0
  failed : Nat := 0
  deriving DecidableEq, Repr

/-- The `for item in search_results` sampling loop of phase 1 (server.py
lines 87–128), with the stream of per-item enrichment outcomes as input.
Checks in source order: break when `sample_count >= 30`, break when
`attempt_count >= 50` (max_attempts), then increment `attempt_count`; a
fetch failure is recorded and skipped; a success is price-filtered, and
only an item with a truthy category id is tallied and counted. -/
def sampleLoop (min_price max_price : Option Int) :
    List FetchOutcome → SamplerState → SamplerState
  | [], s => s
  | o :: rest, s =>
      if s.sample ≥ 30 then s
      else if s.attempt ≥ 50 then s
      else
        let s1 : SamplerState := { s with attempt := s.attempt + 1 }
        match o with
        | none => sampleLoop min_price max_price rest { s1 with failed := s1.failed + 1 }
        | some it =>
            if priceExcluded min_price max_price it.price then
              sampleLoop min_price max_price rest s1
            else if categoryTruthy it.item_category then
              sampleLoop min_price max_price rest
                { s1 with
                  counter := counterInc ((it.item_category.map (·.id)).getD "") s1.counter
                  sample := s1.sample + 1 }
            else sampleLoop min_price max_price rest s1

/-- Stable insertion into a count-descending list: the new element `p`
(which originally precedes every element of the list) goes before the first
entry whose count does not exceed `p`'s, so equal counts keep their original
(insertion) order. -/
def insertByCountDesc (p : String × Nat) : List (String × Nat) → List (String × Nat)
  | [] => [p]
  | q :: qs => if q.2 > p.2 then q :: insertByCountDesc p qs else p :: q :: qs

/-- Stable sort of counter entries by descending count.  Python's
`Counter.most_common(n)` is documented as
`sorted(counter.items(), key=itemgetter(1), reverse=True)[:n]` with a stable
sort, so ties keep Counter insertion (first-seen) order. -/
def sortByCountDesc : List (String × Nat) → List (String × Nat)
  | [] => []
  | p :: rest => insertByCountDesc p (sortByCountDesc rest)

/-- `category_counter.most_common(3)` followed by
`[cat_id for cat_id, count in top_categories]` (server.py lines 147–148). -/
def mostCommon3Ids (counter : List (String × Nat)) : List String :=
  ((sortByCountDesc counter).take 3).map (·.1)

/-- The `if category_counter:` guard around top-category extraction
(server.py lines 146–148): `top_category_ids` stays `[]` when the counter is
empty. -/
def topCategoryIds (counter : List (String × Nat)) : List String :=
  if counter ≠ [] then mostCommon3Ids counter else []

/-- The nested `seller` dictionary of the phase-2 result (server.py lines
204–211), with the `if full_item.seller`/`.ratings` conditional defaults. -/
structure SellerData where
  name : String
  rating_score : Rat
  good_ratings : Int
  normal_ratings : Int
  bad_ratings : Int
  total_sales : Int
  deriving DecidableEq, Repr

/-- The nested `shipping` dictionary (server.py lines 214–219). -/
structure ShippingData where
  payer : String
  method : String
  from_area : String
  duration : String
  deriving DecidableEq, Repr

/-- The `item_data` dictionary appended to `items_found` (server.py lines
198–224). -/
structure ItemData where
  name : String
  price : Int
  url : String
  description : String
  condition : String
  seller : SellerData
  created_timestamp : Int
  updated_timestamp : Int
  shipping : ShippingData
  num_likes : Int
  num_comments : Int
  category : String
  photos : List String
  deriving DecidableEq, Repr

/-- Construction of `item_data` from a successfully enriched item (server.py
lines 198–224), including every `if ... else` default ("Unknown", 0) and the
`photos[:3] if photos else []` truncation. -/
def buildItemData (it : EnrichedItem) : ItemData :=
  { name := it.name
    price := it.price
    url := "https://jp.mercari.com/item/" ++ it.id
    description := it.description
    condition := match it.item_condition with
      | some c => c.name
      | none => "Unknown"
    seller :=
      { name := match it.seller with
          | some s => s.name
          | none => "Unknown"
        rating_score := match it.seller with
          | some s => s.score
          | none => 0
        good_ratings := match it.seller with
          | some s => match s.ratings with
              | some r => r.good
              | none => 0
          | none => 0
        normal_ratings := match it.seller with
          | some s => match s.ratings with
              | some r => r.normal
              | none => 0
          | none => 0
        bad_ratings := match it.seller with
          | some s => match s.ratings with
              | some r => r.bad
              | none => 0
          | none => 0
        total_sales := match it.seller with
          | some s => s.num_sell_items
          | none => 0 }
    created_timestamp := it.created
    updated_timestamp := it.updated
    shipping :=
      { payer := match it.shipping_payer with
          | some p => p.name
          | none => "Unknown"
        method := match it.shipping_method with
          | some m => m.name
          | none => "Unknown"
        from_area := match it.shipping_from_area with
          | some a => a.name
          | none => "Unknown"
        duration := match it.shipping_duration with
          | some d => toString d.min_days ++ "-" ++ toString d.max_days ++ " days"
          | none => "Unknown" }
    num_likes := it.num_likes
    num_comments := it.num_comments
    category := match it.item_category with
      | some c => c.name
      | none => "Unknown"
    photos := if it.photos = [] then [] else it.photos.take 3 }

/-- The `for item in filtered_results` loop of phase 2 (server.py lines
182–242): a per-item fetch failure is recorded and skipped; a success is
dropped when the price filter excludes it, and otherwise its `item_data`
is appended to `items_found`. -/
def phase2Loop (min_price max_price : Option Int) :
    List FetchOutcome → List ItemData
  | [] => []
  | none :: rest => phase2Loop min_price max_price rest
  | some it :: rest =>
      if priceExcluded min_price max_price it.price then
        phase2Loop min_price max_price rest
      else buildItemData it :: phase2Loop min_price max_price rest

/-- Python `str.strip()`: remove leading and trailing whitespace
characters. -/
def pyStrip (s : String) : String :=
  String.mk (((s.data.dropWhile Char.isWhitespace).reverse.dropWhile Char.isWhitespace).reverse)

/-- Python `min_price > max_price` guard (server.py line 60):
`min_price is not None and max_price is not None and min_price > max_price`. -/
def invalidPriceRange (min_price max_price : Option Int) : Bool :=
  match min_price, max_price with
  | some a, some b => a > b
  | _, _ => false

/-- The category ids phase 1 hands to phase 2: an orchestration-level
exception in phase 1 (server.py lines 161–162) degrades to an empty list,
otherwise the sampler runs over the broad stream and the top-3 ids are
extracted (server.py lines 87–148). -/
def discoveredCategoryIds (min_price max_price : Option Int)
    (phase1 : Except String (List FetchOutcome)) : List String :=
  match phase1 with
  | .error _ => []
  | .ok stream => topCategoryIds (sampleLoop min_price max_price stream {}).counter

/-- Phase 2 of the orchestrator (server.py lines 165–263): an
orchestration-level exception yields `[]` (lines 261–263), otherwise the
per-item enrichment loop produces `items_found`. -/
def phase2Run (min_price max_price : Option Int)
    (result : Except String (List FetchOutcome)) : List ItemData :=
  match result with
  | .error _ => []
  | .ok stream => phase2Loop min_price max_price stream

/-- `search_mercari_items_filtered` (server.py lines 37–265), with the two
network-dependent phases supplied as oracles: `phase1` is the broad search
stream with its per-item enrichment outcomes (or an orchestration-level
exception), and `phase2` maps the category-id filter to the refined stream
(or an orchestration-level exception).  Input validation mirrors
`not keyword or not keyword.strip()` and the price-range guard (lines
56–62). -/
def search_mercari_items_filtered (keyword : String)
    (min_price max_price : Option Int)
    (phase1 : Except String (List FetchOutcome))
    (phase2 : List String → Except String (List FetchOutcome)) : List ItemData :=
  if keyword = "" ∨ pyStrip keyword = "" then []
  else if invalidPriceRange min_price max_price then []
  else
    phase2Run min_price max_price
      (phase2 (discoveredCategoryIds min_price max_price phase1))

/-- An enriched item with only the required fields set, in category `cid`
(used as concrete test data). -/
def sampleItemOfCat (cid : String) : EnrichedItem :=
  { id := "m" ++ cid
    name := "item"
    price := 100
    status := "ITEM_STATUS_ON_SALE"
    created := 1
    updated := 2
    item_category := some { id := cid, name := "Category " ++ cid } }

/-- A fully concrete enriched item used as test data. -/
def sampleEnriched : EnrichedItem :=
  { id := "m99"
    name := "camera"
    price := 15
    status := "ITEM_STATUS_ON_SALE"
    created := 10
    updated := 20
    description := "desc"
    photos := ["p1", "p2", "p3", "p4", "p5"]
    item_category := some { id := "cat1", name := "Cameras" } }

end Mercari

namespace Mercari

/-- C1 (counterexample).  The claim extends the id-coercion invariant to the
top-level enriched record's `id` field, but `Item` inherits plain
`BaseModel` (MercariItemPydantic.py line 193): an integer wire value for the
top-level `id` is a `string_type` validation error rather than being coerced
to `"12345"`, even though the shared nested-model validator would coerce the
very same value. -/
theorem c1_top_level_id_not_coerced :
    itemIdField (some (.int 12345)) ≠ .ok "12345" ∧
    itemIdField (some (.int 12345)) = .error "string_type" ∧
    itemIdField none = .error "missing" ∧
    coerce_id_to_str (.int 12345) = "12345" := by
  refine ⟨by simp [itemIdField], rfl, rfl, by decide⟩

/-- C1 (amended).  For every nested object's `id` field (the models that
inherit `BaseModelWithIdCoercion`), any wire value is coerced to its string
form without raising: an integer becomes its decimal string, an
already-string identifier is returned unchanged (idempotence), and
null/empty/absent all yield `""`.  The top-level record's `id` is a plain
required string field with no coercion: a string passes through, while an
integer or null is a `string_type` error and an absent key a `missing`
error. -/
theorem c1_id_coercion_amended :
    (∀ n : Int, nestedIdField (some (.int n)) = toString n) ∧
    (∀ s : String, nestedIdField (some (.str s)) = s) ∧
    nestedIdField (some .null) = "" ∧
    nestedIdField (some (.str "")) = "" ∧
    nestedIdField none = "" ∧
    (∀ s : String, itemIdField (some (.str s)) = .ok s) ∧
    (∀ n : Int, itemIdField (some (.int n)) = .error "string_type") ∧
    itemIdField (some .null) = .error "string_type" ∧
    itemIdField none = .error "missing" := by
  refine ⟨fun n => rfl, fun s => ?_, rfl, by decide, rfl, fun s => rfl, fun n => rfl, rfl, rfl⟩
  by_cases h : s = "" <;> simp [nestedIdField, coerce_id_to_str, h]

lemma mem_insertByCountDesc {x p : String × Nat} {l : List (String × Nat)} :
    x ∈ insertByCountDesc p l ↔ x = p ∨ x ∈ l := by
  induction l with
  | nil => simp [insertByCountDesc]
  | cons q qs ih =>
      simp only [insertByCountDesc]
      split
      · simp only [List.mem_cons, ih]
        tauto
      · simp only [List.mem_cons]

lemma sorted_insertByCountDesc (p : String × Nat) (l : List (String × Nat))
    (h : l.Sorted (fun a b => b.2 ≤ a.2)) :
    (insertByCountDesc p l).Sorted (fun a b => b.2 ≤ a.2) := by
  induction l with
  | nil => simp [insertByCountDesc]
  | cons q qs ih =>
      rw [List.sorted_cons] at h
      obtain ⟨hq, hqs⟩ := h
      simp only [insertByCountDesc]
      split
      · rename_i hgt
        rw [List.sorted_cons]
        refine ⟨fun x hx => ?_, ih hqs⟩
        rcases mem_insertByCountDesc.mp hx with rfl | hx
        · omega
        · exact hq x hx
      · rename_i hle
        rw [List.sorted_cons]
        refine ⟨fun x hx => ?_, List.sorted_cons.mpr ⟨hq, hqs⟩⟩
        rcases List.mem_cons.mp hx with rfl | hx
        · omega
        · have := hq x hx
          omega

lemma sorted_sortByCountDesc (l : List (String × Nat)) :
    (sortByCountDesc l).Sorted (fun a b => b.2 ≤ a.2) := by
  induction l with
  | nil => simp [sortByCountDesc]
  | cons p rest ih => exact sorted_insertByCountDesc p _ ih

/-- The claim's tie-break scenario: a sampled stream whose items fall in
categories A, C, B, A, A, A, A, C, C, B, B, B, B — counts A:5, B:5, C:3,
first seen in the order A, C, B. -/
def c5Stream : List FetchOutcome :=
  ["A", "C", "B", "A", "A", "A", "A", "C", "C", "B", "B", "B", "B"].map
    (fun c => some (sampleItemOfCat c))

/-- C5.  `most_common(3)` output (server.py lines 146–148) is sorted by
descending count (general conjunct: the stable sort modelling
`Counter.most_common` always produces a count-descending list), and on the
claim's scenario — counts A:5, B:5, C:3 discovered in the order A, C, B —
the sampler's counter records first-seen order A, C, B and the top-3 output
is `[A, B, C]`: the A/B tie is broken by first-seen precedence, not by
identifier value. -/
theorem c5_top_categories_tiebreak :
    (∀ counter : List (String × Nat),
      (sortByCountDesc counter).Sorted (fun a b => b.2 ≤ a.2)) ∧
    (sampleLoop none none c5Stream {}).counter =
      [("A", 5), ("C", 3), ("B", 5)] ∧
    topCategoryIds (sampleLoop none none c5Stream {}).counter = ["A", "B", "C"] :=
  ⟨sorted_sortByCountDesc, by decide, by decide⟩

/-- C6.  Both `search_page` (mercari.py line 220) and `search` (line 287)
clamp the caller-supplied page size into `[1, 120]` before building the
request, and the two clamps agree; inputs 0, 121 and 60 yield effective
sizes 1, 120 and 60. -/
theorem c6_page_size_clamped :
    (∀ n : Int, 1 ≤ search_page_limit n ∧ search_page_limit n ≤ 120 ∧
      1 ≤ search_limit n ∧ search_limit n ≤ 120 ∧
      search_page_limit n = search_limit n) ∧
    search_page_limit 0 = 1 ∧ search_page_limit 121 = 120 ∧
    search_page_limit 60 = 60 ∧
    search_limit 0 = 1 ∧ search_limit 121 = 120 ∧ search_limit 60 = 60 := by
  refine ⟨fun n => ?_, by decide, by decide, by decide, by decide, by decide, by decide⟩
  simp only [search_page_limit, search_limit]
  exact ⟨le_max_left _ _, max_le (by norm_num) (min_le_left _ _),
    le_max_left _ _, max_le (by norm_num) (min_le_left _ _), trivial⟩

/-- C8.  When the keyword is empty or whitespace-only, or both price bounds
are given with `min_price > max_price` (server.py lines 56–62), the entry
point returns `[]` for every possible behavior of the two network phases —
in particular without consulting the search stream or any enrichment
outcome. -/
theorem c8_input_validation (keyword : String) (mp Mp : Option Int)
    (p1 : Except String (List FetchOutcome))
    (p2 : List String → Except String (List FetchOutcome))
    (h : pyStrip keyword = "" ∨ invalidPriceRange mp Mp = true) :
    search_mercari_items_filtered keyword mp Mp p1 p2 = [] := by
  rcases h with h | h
  · simp [search_mercari_items_filtered, h]
  · unfold search_mercari_items_filtered
    split
    · rfl
    · simp [h]

/-- Witness for C8: a whitespace-only keyword and an inverted price range
each yield `[]` immediately. -/
theorem c8_witness :
    (pyStrip " " = "" ∨ invalidPriceRange none none = true) ∧
    (pyStrip "a" = "" ∨ invalidPriceRange (some 9) (some 3) = true) ∧
    search_mercari_items_filtered " " none none (.ok []) (fun _ => .ok []) = [] ∧
    search_mercari_items_filtered "a" (some 9) (some 3) (.ok []) (fun _ => .ok []) = [] :=
  ⟨Or.inl (by decide), Or.inr (by decide),
    c8_input_validation " " none none (.ok []) (fun _ => .ok []) (Or.inl (by decide)),
    c8_input_validation "a" (some 9) (some 3) (.ok []) (fun _ => .ok [])
      (Or.inr (by decide))⟩

/-- C9.  Every search-result summary successfully constructed by
`Item.__init__` (mercari.py line 51) has
`soldOut = (status != ITEM_STATUS_SOLD_OUT)`: the flag is true exactly when
the item's status is anything other than sold-out. -/
theorem c9_soldOut_flag (kw : RawSearchItem) (it : SummaryItem)
    (h : mkSummaryItem kw = some it) :
    (it.soldOut = true ↔ kw.status ≠ ITEM_STATUS_SOLD_OUT) ∧
    it.status = kw.status := by
  unfold mkSummaryItem at h
  cases hts : kw.thumbnails with
  | nil => rw [hts] at h; exact absurd h (by simp)
  | cons t0 ts =>
      rw [hts] at h
      cases h
      constructor
      · simp
      · rfl

/-- Witness for C9: a concrete on-sale raw item produces a summary whose
`soldOut` flag is true. -/
theorem c9_witness :
    mkSummaryItem
        { id := "x1", thumbnails := ["t0"], name := "n", price := 5,
          status := "ITEM_STATUS_ON_SALE", created := 3, updated := 4 } =
      some
        { id := "x1", productURL := rootProductURL ++ "x1", imageURL := "t0",
          productName := "n", price := 5, status := "ITEM_STATUS_ON_SALE",
          soldOut := true, created := 3, updated := 4 } ∧
    (({ id := "x1", productURL := rootProductURL ++ "x1", imageURL := "t0",
        productName := "n", price := 5, status := "ITEM_STATUS_ON_SALE",
        soldOut := true, created := 3,
        updated := 4 : SummaryItem }).soldOut = true ↔
      ("ITEM_STATUS_ON_SALE" : String) ≠ ITEM_STATUS_SOLD_OUT) :=
  ⟨by decide,
    (c9_soldOut_flag
        { id := "x1", thumbnails := ["t0"], name := "n", price := 5,
          status := "ITEM_STATUS_ON_SALE", created := 3, updated := 4 }
        { id := "x1", productURL := rootProductURL ++ "x1", imageURL := "t0",
          productName := "n", price := 5, status := "ITEM_STATUS_ON_SALE",
          soldOut := true, created := 3, updated := 4 }
        (by decide)).1⟩

lemma sampleLoop_halt (mp Mp : Option Int) (stream : List FetchOutcome)
    (s : SamplerState) (h : 30 ≤ s.sample ∨ 50 ≤ s.attempt) :
    sampleLoop mp Mp stream s = s := by
  cases stream with
  | nil => rfl
  | cons o rest =>
      simp only [sampleLoop]
      split
      · rfl
      · split
        · rfl
        · rename_i h1 h2
          exact absurd h (by omega)

lemma sampleLoop_consume_successes (mp Mp : Option Int) (succs : List EnrichedItem) :
    ∀ (rest : List FetchOutcome) (s : SamplerState),
    (∀ it ∈ succs, priceExcluded mp Mp it.price = false ∧
      categoryTruthy it.item_category = true) →
    s.sample + succs.length ≤ 30 → s.attempt + succs.length ≤ 50 →
    sampleLoop mp Mp (succs.map (fun it => some it) ++ rest) s =
      sampleLoop mp Mp rest
        { counter := succs.foldl
            (fun c it => counterInc ((it.item_category.map (·.id)).getD "") c) s.counter
          sample := s.sample + succs.length
          attempt := s.attempt + succs.length
          failed := s.failed } := by
  induction succs with
  | nil => intro rest s _ _ _; simp
  | cons it its ih =>
      intro rest s hok hs ha
      have hit := hok it (List.mem_cons_self it its)
      simp only [List.map_cons, List.cons_append, List.length_cons] at *
      simp only [sampleLoop]
      rw [if_neg (by omega), if_neg (by omega)]
      rw [hit.1]
      simp only [Bool.false_eq_true, if_false, hit.2, if_true]
      rw [ih rest _ (fun x hx => hok x (List.mem_cons_of_mem it hx)) (by simp; omega)
        (by simp; omega)]
      simp only [List.foldl_cons]
      congr 1
      simp only [SamplerState.mk.injEq]
      exact ⟨trivial, by omega, by omega, trivial⟩

/-- C2.  The category-discovery loop (server.py lines 87–128) stops as soon
as `sample_count` reaches 30 or `attempt_count` reaches 50, whichever comes
first (first conjunct: any state with 30 successes or 50 attempts consumes
nothing further from the stream); and for a stream whose first 30
enrichments succeed — passing the price filter and carrying a truthy
category id — the loop makes exactly 30 attempts regardless of what follows
and tallies exactly those 30 items' category identifiers. -/
theorem c2_sampler_stops_at_target (mp Mp : Option Int)
    (succs : List EnrichedItem) (rest : List FetchOutcome)
    (hlen : succs.length = 30)
    (hok : ∀ it ∈ succs, priceExcluded mp Mp it.price = false ∧
      categoryTruthy it.item_category = true) :
    (∀ (stream : List FetchOutcome) (s : SamplerState),
      30 ≤ s.sample ∨ 50 ≤ s.attempt → sampleLoop mp Mp stream s = s) ∧
    sampleLoop mp Mp (succs.map (fun it => some it) ++ rest) {} =
      { counter := succs.foldl
          (fun c it => counterInc ((it.item_category.map (·.id)).getD "") c) []
        sample := 30
        attempt := 30
        failed := 0 } := by
  refine ⟨fun stream s h => sampleLoop_halt mp Mp stream s h, ?_⟩
  rw [sampleLoop_consume_successes mp Mp succs rest {} hok (by simp [hlen])
    (by simp [hlen])]
  rw [sampleLoop_halt mp Mp rest _ (Or.inl (by simp [hlen]))]
  simp [hlen]

/-- Thirty enrichment successes in category W, used to witness C2. -/
def c2Succs : List EnrichedItem := List.replicate 30 (sampleItemOfCat "W")

/-- Witness for C2: thirty successes followed by ten failures stop the
sampler at exactly 30 attempts with 30 tallied samples. -/
theorem c2_witness :
    c2Succs.length = 30 ∧
    (∀ it ∈ c2Succs, priceExcluded none none it.price = false ∧
      categoryTruthy it.item_category = true) ∧
    ((∀ (stream : List FetchOutcome) (s : SamplerState),
        30 ≤ s.sample ∨ 50 ≤ s.attempt → sampleLoop none none stream s = s) ∧
      sampleLoop none none
          (c2Succs.map (fun it => some it) ++ List.replicate 10 none) {} =
        { counter := c2Succs.foldl
            (fun c it => counterInc ((it.item_category.map (·.id)).getD "") c) []
          sample := 30
          attempt := 30
          failed := 0 }) :=
  ⟨by decide, by decide,
    c2_sampler_stops_at_target none none c2Succs (List.replicate 10 none)
      (by decide) (by decide)⟩

lemma pagesOf_cons_shift {α : Type} (p : PageResp α) (ps : List (PageResp α))
    (rest : Nat → PageResp α) :
    (fun i => pagesOf (p :: ps) rest (i + 1)) = pagesOf ps rest := by
  funext i
  simp [pagesOf]

lemma searchStream_succ {α : Type} (fuel : Nat) (pages : Nat → PageResp α) :
    searchStream (fuel + 1) pages =
      if (parse (pages 0)).2.1 = true then
        ((parse (pages 0)).1 ++ (searchStream fuel (fun i => pages (i + 1))).1,
          (searchStream fuel (fun i => pages (i + 1))).2)
      else ((parse (pages 0)).1, true) := rfl

lemma searchStream_pages {α : Type} (ps : List (PageResp α)) (pN : PageResp α)
    (rest : Nat → PageResp α)
    (hne : ∀ p ∈ ps, p.items ≠ [] ∧ tokenTruthy p.nextPageToken = true)
    (hstop : pN.items = [] ∨ tokenTruthy pN.nextPageToken = false) :
    searchStream (ps.length + 1) (pagesOf (ps ++ [pN]) rest) =
      ((ps.map (·.items)).flatten ++ pN.items, true) := by
  induction ps with
  | nil =>
      have h0 : pagesOf [pN] rest 0 = pN := rfl
      simp only [List.length_nil, List.map_nil, List.flatten_nil, List.nil_append,
        searchStream, h0]
      by_cases hi : pN.items = []
      · simp [parse, hi]
      · rcases hstop with h | h
        · exact absurd h hi
        · simp [parse, List.length_eq_zero, hi, h]
  | cons p ps ih =>
      have hp := hne p (List.mem_cons_self p ps)
      have h0 : pagesOf ((p :: ps) ++ [pN]) rest 0 = p := rfl
      have hsh : (fun i => pagesOf ((p :: ps) ++ [pN]) rest (i + 1)) =
          pagesOf (ps ++ [pN]) rest := by
        rw [List.cons_append]
        exact pagesOf_cons_shift p (ps ++ [pN]) rest
      rw [List.length_cons, searchStream_succ, h0, hsh]
      rw [ih (fun q hq => hne q (List.mem_cons_of_mem p hq))]
      simp [parse, List.length_eq_zero, hp.1, hp.2]

/-- Server that answers every request with one item and the same non-empty
cursor `"v1:1"` — a repeated cursor with non-empty pages. -/
def repeatedCursorPages : Nat → PageResp Nat :=
  fun _ => { items := [0], nextPageToken := some "v1:1" }

/-- C3 (counterexample).  The claim says the stream never loops indefinitely
on a repeated cursor, but the `while has_next_page` loop (mercari.py lines
325–330) has no repeated-cursor detection: against a server that always
returns a non-empty item list together with the same non-empty cursor, the
generator never terminates — no iteration bound ever observes the exit
condition. -/
theorem c3_repeated_cursor_loops_forever : ¬ StreamTerminates repeatedCursorPages := by
  have key : ∀ fuel, (searchStream fuel repeatedCursorPages).2 = false := by
    intro fuel
    induction fuel with
    | zero => rfl
    | succ n ih =>
        have hshift : (fun i => repeatedCursorPages (i + 1)) = repeatedCursorPages := rfl
        simp only [searchStream, hshift]
        simpa [parse, repeatedCursorPages, tokenTruthy] using ih
  rintro ⟨fuel, hf⟩
  rw [key fuel] at hf
  exact Bool.false_ne_true hf

/-- C3 (amended).  The stream terminates when a page returns zero items or
when the next-cursor is empty/absent — and these are its only termination
conditions (a repeated non-empty cursor with non-empty pages loops forever,
see the counterexample).  For pages `1..N-1` with non-empty items and
non-empty cursors: if page N returns an empty item list (even with a
non-empty next-cursor `tokA`), the stream yields exactly the items of pages
`1..N-1` and stops; if page N returns items with an empty/absent cursor
`tokB`, the stream yields pages `1..N` and stops. -/
theorem c3_pagination_termination_amended {α : Type} (ps : List (PageResp α))
    (rest : Nat → PageResp α) (tokA tokB : Option String) (itemsN : List α)
    (hne : ∀ p ∈ ps, p.items ≠ [] ∧ tokenTruthy p.nextPageToken = true)
    (hA : tokenTruthy tokA = true) (hB : tokenTruthy tokB = false) :
    searchStream (ps.length + 1)
        (pagesOf (ps ++ [{ items := [], nextPageToken := tokA }]) rest) =
      ((ps.map (·.items)).flatten, true) ∧
    searchStream (ps.length + 1)
        (pagesOf (ps ++ [{ items := itemsN, nextPageToken := tokB }]) rest) =
      ((ps.map (·.items)).flatten ++ itemsN, true) ∧
    StreamTerminates
      (pagesOf (ps ++ [{ items := [], nextPageToken := tokA }]) rest) := by
  have h1 := searchStream_pages ps { items := [], nextPageToken := tokA } rest hne
    (Or.inl rfl)
  have h2 := searchStream_pages ps { items := itemsN, nextPageToken := tokB } rest hne
    (Or.inr hB)
  refine ⟨by simpa using h1, h2, ⟨ps.length + 1, ?_⟩⟩
  rw [h1]

/-- Witness for C3 (amended): two non-empty pages, then a page with an empty
item list and non-empty cursor; the stream yields the five items of pages
1–2 and stops. -/
theorem c3_witness :
    (∀ p ∈ ([{ items := [1, 2], nextPageToken := some "v1:1" },
        { items := [3, 4, 5], nextPageToken := some "v1:2" }] : List (PageResp Nat)),
      p.items ≠ [] ∧ tokenTruthy p.nextPageToken = true) ∧
    tokenTruthy (some "v1:3") = true ∧ tokenTruthy none = false ∧
    (searchStream 3
        (pagesOf ([{ items := [1, 2], nextPageToken := some "v1:1" },
            { items := [3, 4, 5], nextPageToken := some "v1:2" }] ++
          [{ items := [], nextPageToken := some "v1:3" }])
          (fun _ => { items := [], nextPageToken := none })) =
      (([{ items := [1, 2], nextPageToken := some "v1:1" },
          { items := [3, 4, 5], nextPageToken := some "v1:2" }] :
            List (PageResp Nat)).map (·.items) |>.flatten, true) ∧
      searchStream 3
          (pagesOf ([{ items := [1, 2], nextPageToken := some "v1:1" },
              { items := [3, 4, 5], nextPageToken := some "v1:2" }] ++
            [{ items := [9], nextPageToken := none }])
            (fun _ => { items := [], nextPageToken := none })) =
        ((([{ items := [1, 2], nextPageToken := some "v1:1" },
            { items := [3, 4, 5], nextPageToken := some "v1:2" }] :
              List (PageResp Nat)).map (·.items) |>.flatten) ++ [9], true) ∧
      StreamTerminates
        (pagesOf ([{ items := [1, 2], nextPageToken := some "v1:1" },
            { items := [3, 4, 5], nextPageToken := some "v1:2" }] ++
          [{ items := [], nextPageToken := some "v1:3" }])
          (fun _ => { items := [], nextPageToken := none }))) :=
  ⟨by decide, by decide, by decide,
    c3_pagination_termination_amended
      [{ items := [1, 2], nextPageToken := some "v1:1" },
        { items := [3, 4, 5], nextPageToken := some "v1:2" }]
      (fun _ => { items := [], nextPageToken := none })
      (some "v1:3") none [9] (by decide) (by decide) (by decide)⟩

/-- C4.  For valid inputs the public entry point handles both expected
failure classes without raising: a phase-1 discovery failure degrades to an
empty category filter (`discoveredCategoryIds` of an error is `[]`) and the
call proceeds into phase 2 as usual, while an orchestration-level phase-2
failure yields `[]` (server.py lines 161–162 and 261–263; logging is a side
effect outside the embedding).  Being a total function of its oracles, the
embedded entry point returns a list on every input. -/
theorem c4_failure_degradation (keyword : String) (mp Mp : Option Int)
    (e e2 : String) (p1 : Except String (List FetchOutcome))
    (p2 p2b : List String → Except String (List FetchOutcome))
    (hk : pyStrip keyword ≠ "") (hr : invalidPriceRange mp Mp = false)
    (hp2b : p2b (discoveredCategoryIds mp Mp p1) = .error e2) :
    search_mercari_items_filtered keyword mp Mp (.error e) p2 =
      phase2Run mp Mp (p2 (discoveredCategoryIds mp Mp (.error e))) ∧
    discoveredCategoryIds mp Mp (.error e) = [] ∧
    search_mercari_items_filtered keyword mp Mp p1 p2b = [] := by
  have hk0 : ¬ (keyword = "" ∨ pyStrip keyword = "") := by
    rintro (rfl | h)
    · exact hk rfl
    · exact hk h
  refine ⟨?_, rfl, ?_⟩
  · simp [search_mercari_items_filtered, hk0, hr]
  · simp [search_mercari_items_filtered, hk0, hr, hp2b, phase2Run]

/-- Witness for C4: with a valid keyword and price range, a phase-1 error
leads to an empty category filter and a phase-2 run, and a phase-2 error
produces `[]`. -/
theorem c4_witness :
    pyStrip "a" ≠ "" ∧ invalidPriceRange none none = false ∧
    (fun _ : List String => (.error "boom" : Except String (List FetchOutcome)))
        (discoveredCategoryIds none none (.ok [])) = .error "boom" ∧
    (search_mercari_items_filtered "a" none none (.error "down")
          (fun _ => .ok []) =
        phase2Run none none
          ((fun _ : List String => (.ok [] : Except String (List FetchOutcome)))
            (discoveredCategoryIds none none (.error "down"))) ∧
      discoveredCategoryIds none none (.error "down") = [] ∧
      search_mercari_items_filtered "a" none none (.ok [])
          (fun _ => .error "boom") = []) :=
  ⟨by decide, by decide, rfl,
    c4_failure_degradation "a" none none "down" "boom" (.ok [])
      (fun _ => .ok []) (fun _ => .error "boom") (by decide) (by decide) rfl⟩

lemma phase2Loop_mem (mp Mp : Option Int) (outs : List FetchOutcome)
    (d : ItemData) (hd : d ∈ phase2Loop mp Mp outs) :
    ∃ it : EnrichedItem, some it ∈ outs ∧ d = buildItemData it ∧
      priceExcluded mp Mp it.price = false := by
  induction outs with
  | nil => simp [phase2Loop] at hd
  | cons o rest ih =>
      match o with
      | none =>
          obtain ⟨it, h1, h2, h3⟩ := ih hd
          exact ⟨it, List.mem_cons_of_mem _ h1, h2, h3⟩
      | some it0 =>
          by_cases hp : priceExcluded mp Mp it0.price = true
          · rw [show phase2Loop mp Mp (some it0 :: rest) =
                if priceExcluded mp Mp it0.price then phase2Loop mp Mp rest
                else buildItemData it0 :: phase2Loop mp Mp rest from rfl,
              if_pos hp] at hd
            obtain ⟨it, h1, h2, h3⟩ := ih hd
            exact ⟨it, List.mem_cons_of_mem _ h1, h2, h3⟩
          · rw [show phase2Loop mp Mp (some it0 :: rest) =
                if priceExcluded mp Mp it0.price then phase2Loop mp Mp rest
                else buildItemData it0 :: phase2Loop mp Mp rest from rfl,
              if_neg hp] at hd
            rcases List.mem_cons.mp hd with rfl | hd
            · exact ⟨it0, List.mem_cons_self _ _, rfl,
                Bool.not_eq_true _ ▸ Bool.of_not_eq_true hp⟩
            · obtain ⟨it, h1, h2, h3⟩ := ih hd
              exact ⟨it, List.mem_cons_of_mem _ h1, h2, h3⟩

/-- C7.  Every record in the final aggregated result respects the caller's
price-range predicate — `min_price ≤ price` when a lower bound is given and
`price ≤ max_price` when an upper bound is given — and arises from a
successful enrichment in the phase-2 stream (server.py lines 182–226): no
failed enrichment contributes a record. -/
theorem c7_price_range_respected (mp Mp : Option Int) (outs : List FetchOutcome)
    (d : ItemData) (hd : d ∈ phase2Loop mp Mp outs) :
    (∀ m, mp = some m → m ≤ d.price) ∧
    (∀ M, Mp = some M → d.price ≤ M) ∧
    (∃ it : EnrichedItem, some it ∈ outs ∧ d = buildItemData it) := by
  obtain ⟨it, hmem, rfl, hp⟩ := phase2Loop_mem mp Mp outs d hd
  have hdp : (buildItemData it).price = it.price := rfl
  simp only [priceExcluded, Bool.or_eq_false_iff] at hp
  refine ⟨fun m hm => ?_, fun M hM => ?_, it, hmem, rfl⟩
  · have := hp.1
    rw [hm] at this
    simp only [decide_eq_false_iff_not, not_lt] at this
    rw [hdp]
    exact this
  · have := hp.2
    rw [hM] at this
    simp only [decide_eq_false_iff_not, not_lt] at this
    rw [hdp]
    exact this

/-- Witness for C7: with bounds 10 and 20, the record built from a
successfully enriched item priced 15 appears in the output and satisfies
both bounds. -/
theorem c7_witness :
    buildItemData sampleEnriched ∈
      phase2Loop (some 10) (some 20) [none, some sampleEnriched] ∧
    ((∀ m, (some 10 : Option Int) = some m →
        m ≤ (buildItemData sampleEnriched).price) ∧
      (∀ M, (some 20 : Option Int) = some M →
        (buildItemData sampleEnriched).price ≤ M) ∧
      (∃ it : EnrichedItem, some it ∈ [none, some sampleEnriched] ∧
        buildItemData sampleEnriched = buildItemData it)) :=
  ⟨by decide,
    c7_price_range_respected (some 10) (some 20) [none, some sampleEnriched]
      (buildItemData sampleEnriched) (by decide)⟩

/-- C10.  Every record in the final aggregated result carries at most 3
photo references, and its `photos` field is exactly the first-3 prefix of
the enriched record's photo list (server.py line 223; `take 3` of an empty
list is empty, matching the `else []` branch). -/
theorem c10_photos_first3 (mp Mp : Option Int) (outs : List FetchOutcome)
    (d : ItemData) (hd : d ∈ phase2Loop mp Mp outs) :
    d.photos.length ≤ 3 ∧
    ∃ it : EnrichedItem, some it ∈ outs ∧ d = buildItemData it ∧
      d.photos = it.photos.take 3 := by
  obtain ⟨it, hmem, rfl, _⟩ := phase2Loop_mem mp Mp outs d hd
  have hph : (buildItemData it).photos = it.photos.take 3 := by
    show (if it.photos = [] then [] else it.photos.take 3) = it.photos.take 3
    by_cases h : it.photos = [] <;> simp [h]
  refine ⟨?_, it, hmem, rfl, hph⟩
  rw [hph, List.length_take]
  exact Nat.min_le_left 3 _

/-- Witness for C10: the record built from an enriched item with five photos
appears in the output with exactly its first three photos. -/
theorem c10_witness :
    buildItemData sampleEnriched ∈ phase2Loop none none [some sampleEnriched] ∧
    ((buildItemData sampleEnriched).photos.length ≤ 3 ∧
      ∃ it : EnrichedItem, some it ∈ [some sampleEnriched] ∧
        buildItemData sampleEnriched = buildItemData it ∧
        (buildItemData sampleEnriched).photos = it.photos.take 3) :=
  ⟨by decide,
    c10_photos_first3 none none [some sampleEnriched]
      (buildItemData sampleEnriched) (by decide)⟩

end Mercari
